import Mathlib

/-!
# nglog: the logger core (`ng/logger.go`)

A shallow embedding of the package `ng`: the singleton constructor `NewLogger`,
the entry pool (`newEntry` / `releaseEntry`), the level-gated entry points
`Logf` / `Logln` (methods and package-level functions), the unconditional
`Print` family, `WithFields` and the timestamp switches.

Conventions.

* `enum.LogLevel`, `enum.Flags` and `int` are Go integers that are only compared
  or stored here, never computed with: they are `Int`.  The one conversion, to
  the `int32` in which the standard `log` package keeps its flags, is `toInt32`.
* A pointer `*LogMsg` is a record carrying its address `addr`; a pointer
  `*StdLogger` that may be `nil` is an `Option StdLogger`.
* `sync.Pool` is a bag of idle entries; which item `Get` hands out (or whether it
  reports the pool as empty) is an explicit argument `pick`.
* What a call does to the outside world (an entry taken, `LogEnt` invoked, an
  entry put back, `os.Exit`) is recorded, in order, in `Proc.trace`.
-/

namespace ng

/-! ## Data model -/

/-- An argument of a log call (`interface{}` in the source). -/
inductive Value where
  | str (s : String)
  | int (i : Int)
  | bool (b : Bool)
  deriving DecidableEq, Repr

/-- Modelled from the spec: the struct `Fields` is declared outside `logger.go`;
the spec describes it as one key/value pair attached to an entry. -/
structure Fields where
  Key : String
  Val : Value
  deriving DecidableEq, Repr

/-- Modelled from the spec: the struct `LogMsg` is declared outside `logger.go`.
The spec's entry holds one call's level, format, caller, newline switch and
arguments next to the attached fields; `logger.go` itself only touches
`Fields`.  `addr` is the identity of the pointer `*LogMsg`. -/
structure LogMsg where
  addr : Nat
  Level : Int
  Format : String
  Caller : String
  Newline : Bool
  Args : List Value
  Fields : List Fields
  deriving DecidableEq, Repr

/-- The numeric values of the constants `enum.NONE` ... `enum.DEBUGX2`.  The
package `enum` is not part of `logger.go`, so the seven values are taken as a
parameter of the embedding. -/
structure LogLevels where
  NONE : Int
  FATAL : Int
  ERROR : Int
  WARN : Int
  INFO : Int
  DEBUG : Int
  DEBUGX2 : Int
  deriving DecidableEq, Repr

/-- The seven named levels, in the order of the spec. -/
def LogLevels.named (E : LogLevels) : List Int :=
  [E.NONE, E.FATAL, E.ERROR, E.WARN, E.INFO, E.DEBUG, E.DEBUGX2]

/-- Modelled from the spec: the level order `NONE < FATAL < ERROR < WARN < INFO <
DEBUG < DEBUGX2` of the missing package `enum`. -/
def LogLevels.Ordered (E : LogLevels) : Prop :=
  E.NONE < E.FATAL ∧ E.FATAL < E.ERROR ∧ E.ERROR < E.WARN ∧ E.WARN < E.INFO ∧
    E.INFO < E.DEBUG ∧ E.DEBUG < E.DEBUGX2

instance (E : LogLevels) : Decidable E.Ordered := by
  unfold LogLevels.Ordered; infer_instance

/-- Modelled from the spec: one numbering of the missing constants that respects
the spec's order and keeps `0`, the value `NewLogger` reads as "no level set",
apart from every level. -/
def stdLevels : LogLevels :=
  { NONE := 1, FATAL := 2, ERROR := 3, WARN := 4, INFO := 5, DEBUG := 6, DEBUGX2 := 7 }

/-- Modelled from the spec: another numbering of the missing constants that
respects the spec's order, the one a plain `iota` gives, counting from `0`. -/
def iotaLevels : LogLevels :=
  { NONE := 0, FATAL := 1, ERROR := 2, WARN := 3, INFO := 4, DEBUG := 5, DEBUGX2 := 6 }

/-- The color attributes handed to `ColorFmt` (declared outside `logger.go`). -/
inductive Attribute where
  | FgRed
  | FgYellow
  | FgBlue
  | FgWhite
  deriving DecidableEq, Repr

/-- An `io.Writer` the logger can be pointed at. -/
inductive Writer where
  | Stdout
  | Stderr
  | file (path : String)
  deriving DecidableEq, Repr

/-- An appender, as far as `logger.go` sees it: `NewConsoleAppender(rule)` builds
a console appender with a match rule. -/
inductive Appender where
  | console (rule : String)
  | other (name rule : String)
  deriving DecidableEq, Repr

/-- The constructor `NewConsoleAppender` of the source. -/
def NewConsoleAppender (rule : String) : Appender := Appender.console rule

/-- Modelled from the spec: the layout `TextLayout` behind the interface `Layout`
is declared outside `logger.go`; the spec says a timestamp is included unless
explicitly disabled. -/
structure Layout where
  ForceColor : Bool
  DisableTimestamp : Bool
  deriving DecidableEq, Repr

/-- Modelled from the spec: the method `DisableTimeStamp` of the missing layout
switches the timestamp off. -/
def Layout.DisableTimeStamp (f : Layout) : Layout :=
  { f with DisableTimestamp := true }

/-- What the layout reports: is a timestamp rendered. -/
def Layout.timestampEnabled (f : Layout) : Bool := !f.DisableTimestamp

/-- The collaborators of `logger.go` outside the package's own state: the color
formatter, the stack walker and the clock. -/
structure Env where
  ColorFmt : Attribute → String
  FindIssue : Int → String
  timeNow : Nat

/-- A concrete environment used for evaluation. -/
def stdEnv : Env :=
  { ColorFmt := fun a =>
      match a with
      | Attribute.FgRed => "31"
      | Attribute.FgYellow => "33"
      | Attribute.FgBlue => "34"
      | Attribute.FgWhite => "37"
    FindIssue := fun d => if d = 5 then "main.main" else ""
    timeNow := 0 }

/-- The type `StdLogger`.  The mutex `MU` has no sequential content and is left
out; `appenders` and `Out` can be `nil`. -/
structure StdLogger where
  Formatter : Layout
  appenders : Option (List Appender)
  Out : Option Writer
  level : Int
  depth : Int
  flags : Int
  ColorDEFAULT : String
  ColorERR : String
  ColorWARN : String
  ColorINFO : String
  ColorDEBUG : String
  ColorDEBUGX2 : String
  entryPool : List LogMsg
  Now : Nat
  deriving DecidableEq, Repr

/-- What one step of a call does outside the logger's own fields. -/
inductive Event where
  | acquire (reuseFields : Bool) (addr : Nat)
  | logEnt (addr : Nat) (lvl : Int) (format : String) (caller : String) (newline : Bool)
      (args : List Value)
  | release (addr : Nat)
  | exit (code : Int)
  deriving DecidableEq, Repr

/-- The process around the logger: the observable trace, the flags of the
standard `log` package and the next free address for an allocation. -/
structure Proc where
  trace : List Event
  logFlags : Int
  nextAddr : Nat
  deriving DecidableEq, Repr

/-- A configuration option: a function that mutates the logger it is given. -/
abbrev LogOption := StdLogger → StdLogger

/-! ## The entry pool -/

/-- The method `Get` of `sync.Pool` (no `New` function is installed): it removes
and returns an arbitrary item, or reports nothing.  `pick = none` is the pool
treating itself as empty, `pick = some i` selects the item at position `i`. -/
def poolGet (pool : List LogMsg) (pick : Option Nat) : Option LogMsg × List LogMsg :=
  match pick with
  | none => (none, pool)
  | some i =>
    match pool.get? i with
    | none => (none, pool)
    | some m => (some m, pool.eraseIdx i)

/-- The method `Put` of `sync.Pool`. -/
def poolPut (pool : List LogMsg) (m : LogMsg) : List LogMsg := m :: pool

/-- Modelled from the spec: the constructor `NewEntry` is declared outside
`logger.go`; the spec says that with no idle entry a new one is allocated.  The
new entry has a fresh address and nothing attached. -/
def NewEntry (_l : StdLogger) (p : Proc) : LogMsg × Proc :=
  ({ addr := p.nextAddr, Level := 0, Format := "", Caller := "", Newline := false,
     Args := [], Fields := [] },
   { p with nextAddr := p.nextAddr + 1 })

/-- The method `newEntry`: take a `LogMsg` from the pool or, if none is
available, create one.  The entry handed out is recorded in the trace. -/
def StdLogger.newEntry (l : StdLogger) (p : Proc) (fields : Bool) (pick : Option Nat) :
    LogMsg × StdLogger × Proc :=
  match poolGet l.entryPool pick with
  | (some lmsg, pool) =>
    let lmsg := if !fields then { lmsg with Fields := [] } else lmsg
    (lmsg, { l with entryPool := pool },
      { p with trace := p.trace ++ [Event.acquire fields lmsg.addr] })
  | (none, pool) =>
    let l := { l with entryPool := pool }
    let (e, p) := NewEntry l p
    (e, l, { p with trace := p.trace ++ [Event.acquire fields e.addr] })

/-- The method `releaseEntry`: put the entry back into the pool. -/
def StdLogger.releaseEntry (l : StdLogger) (p : Proc) (entry : LogMsg) : StdLogger × Proc :=
  ({ l with entryPool := poolPut l.entryPool entry },
   { p with trace := p.trace ++ [Event.release entry.addr] })

/-- Modelled from the spec: the method `LogEnt` of `LogMsg` is declared outside
`logger.go`; the spec says it populates the entry with the call's data, renders
it and dispatches it to the appenders.  The invocation is one trace event. -/
def LogMsg.LogEnt (entry : LogMsg) (p : Proc) (lvl : Int) (format : String) (caller : String)
    (newline : Bool) (args : List Value) : LogMsg × Proc :=
  ({ entry with Level := lvl, Format := format, Caller := caller, Newline := newline,
                Args := args },
   { p with trace := p.trace ++ [Event.logEnt entry.addr lvl format caller newline args] })

/-- Modelled from the spec: the method `WithFields` of `LogMsg` is declared
outside `logger.go`; the spec says each supplied pair is appended to the entry's
fields in order and the entry is returned. -/
def LogMsg.WithFields (entry : LogMsg) (fields : List ng.Fields) : LogMsg :=
  { entry with Fields := entry.Fields ++ fields }

/-- The method `Caller`: the function name found `depth` frames up. -/
def StdLogger.Caller (env : Env) (l : StdLogger) : String := env.FindIssue l.depth

/-- The exit of the process, `os.Exit(code)`. -/
def osExit (p : Proc) (code : Int) : Proc :=
  { p with trace := p.trace ++ [Event.exit code] }

/-! ## The unconditional print family -/

/-- The method `Print`. -/
def StdLogger.Print (env : Env) (E : LogLevels) (l : StdLogger) (p : Proc) (args : List Value)
    (pick : Option Nat) : StdLogger × Proc :=
  let (entry, l, p) := l.newEntry p false pick
  let (entry, p) := entry.LogEnt p E.NONE "" (l.Caller env) false args
  l.releaseEntry p entry

/-- The method `Printf`. -/
def StdLogger.Printf (env : Env) (E : LogLevels) (l : StdLogger) (p : Proc) (format : String)
    (args : List Value) (pick : Option Nat) : StdLogger × Proc :=
  let (entry, l, p) := l.newEntry p false pick
  let (entry, p) := entry.LogEnt p E.NONE format (l.Caller env) false args
  l.releaseEntry p entry

/-- The method `Println`. -/
def StdLogger.Println (env : Env) (E : LogLevels) (l : StdLogger) (p : Proc) (args : List Value)
    (pick : Option Nat) : StdLogger × Proc :=
  let (entry, l, p) := l.newEntry p false pick
  let (entry, p) := entry.LogEnt p E.NONE "" (l.Caller env) true args
  l.releaseEntry p entry

/-! ## The level-gated methods -/

/-- The method `Logln`: a `switch` over the level with one case per named level
and a `default` case, tried from top to bottom.  Only the `FATAL` case ends in
`os.Exit(1)`. -/
def StdLogger.Logln (env : Env) (E : LogLevels) (l : StdLogger) (p : Proc) (lvl : Int)
    (args : List Value) (pick : Option Nat) : StdLogger × Proc :=
  if lvl = E.NONE then
    if l.level ≥ E.NONE then
      let (entry, l, p) := l.newEntry p false pick
      let (entry, p) := entry.LogEnt p lvl "" (l.Caller env) true args
      l.releaseEntry p entry
    else (l, p)
  else if lvl = E.FATAL then
    if l.level ≥ E.FATAL then
      let (entry, l, p) := l.newEntry p false pick
      let (entry, p) := entry.LogEnt p lvl "" (l.Caller env) true args
      let (l, p) := l.releaseEntry p entry
      (l, osExit p 1)
    else (l, p)
  else if lvl = E.ERROR then
    if l.level ≥ E.ERROR then
      let (entry, l, p) := l.newEntry p false pick
      let (entry, p) := entry.LogEnt p lvl "" (l.Caller env) true args
      l.releaseEntry p entry
    else (l, p)
  else if lvl = E.WARN then
    if l.level ≥ E.WARN then
      let (entry, l, p) := l.newEntry p false pick
      let (entry, p) := entry.LogEnt p lvl "" (l.Caller env) true args
      l.releaseEntry p entry
    else (l, p)
  else if lvl = E.INFO then
    if l.level ≥ E.INFO then
      let (entry, l, p) := l.newEntry p false pick
      let (entry, p) := entry.LogEnt p lvl "" (l.Caller env) true args
      l.releaseEntry p entry
    else (l, p)
  else if lvl = E.DEBUG then
    if l.level ≥ E.DEBUG then
      let (entry, l, p) := l.newEntry p false pick
      let (entry, p) := entry.LogEnt p lvl "" (l.Caller env) true args
      l.releaseEntry p entry
    else (l, p)
  else if lvl = E.DEBUGX2 then
    if l.level ≥ E.DEBUGX2 then
      let (entry, l, p) := l.newEntry p false pick
      let (entry, p) := entry.LogEnt p lvl "" (l.Caller env) true args
      l.releaseEntry p entry
    else (l, p)
  else
    let (entry, l, p) := l.newEntry p false pick
    let (entry, p) := entry.LogEnt p lvl "" (l.Caller env) true args
    l.releaseEntry p entry

/-- The method `Logf`: the same `switch` as `Logln`, with the caller's format and
no newline.  No case of it calls `os.Exit`. -/
def StdLogger.Logf (env : Env) (E : LogLevels) (l : StdLogger) (p : Proc) (lvl : Int)
    (format : String) (args : List Value) (pick : Option Nat) : StdLogger × Proc :=
  if lvl = E.NONE then
    if l.level ≥ E.NONE then
      let (entry, l, p) := l.newEntry p false pick
      let (entry, p) := entry.LogEnt p lvl format (l.Caller env) false args
      l.releaseEntry p entry
    else (l, p)
  else if lvl = E.FATAL then
    if l.level ≥ E.FATAL then
      let (entry, l, p) := l.newEntry p false pick
      let (entry, p) := entry.LogEnt p lvl format (l.Caller env) false args
      l.releaseEntry p entry
    else (l, p)
  else if lvl = E.ERROR then
    if l.level ≥ E.ERROR then
      let (entry, l, p) := l.newEntry p false pick
      let (entry, p) := entry.LogEnt p lvl format (l.Caller env) false args
      l.releaseEntry p entry
    else (l, p)
  else if lvl = E.WARN then
    if l.level ≥ E.WARN then
      let (entry, l, p) := l.newEntry p false pick
      let (entry, p) := entry.LogEnt p lvl format (l.Caller env) false args
      l.releaseEntry p entry
    else (l, p)
  else if lvl = E.INFO then
    if l.level ≥ E.INFO then
      let (entry, l, p) := l.newEntry p false pick
      let (entry, p) := entry.LogEnt p lvl format (l.Caller env) false args
      l.releaseEntry p entry
    else (l, p)
  else if lvl = E.DEBUG then
    if l.level ≥ E.DEBUG then
      let (entry, l, p) := l.newEntry p false pick
      let (entry, p) := entry.LogEnt p lvl format (l.Caller env) false args
      l.releaseEntry p entry
    else (l, p)
  else if lvl = E.DEBUGX2 then
    if l.level ≥ E.DEBUGX2 then
      let (entry, l, p) := l.newEntry p false pick
      let (entry, p) := entry.LogEnt p lvl format (l.Caller env) false args
      l.releaseEntry p entry
    else (l, p)
  else
    let (entry, l, p) := l.newEntry p false pick
    let (entry, p) := entry.LogEnt p lvl format (l.Caller env) false args
    l.releaseEntry p entry

/-- The method `WithFields`: the entry is taken with `newEntry(true)`, the result
is `entry.WithFields(fields)`, and the deferred `releaseEntry(entry)` runs when
the method returns, after the result has been computed.  `entry` is a pointer
and `LogMsg.WithFields` appends to the entry it is called on, so what the
deferred call puts into the pool is the entry with the fields appended. -/
def StdLogger.WithFields (l : StdLogger) (p : Proc) (fields : List Fields) (pick : Option Nat) :
    LogMsg × StdLogger × Proc :=
  let (entry, l, p) := l.newEntry p true pick
  let result := entry.WithFields fields
  let entry := result
  let (l, p) := l.releaseEntry p entry
  (result, l, p)

/-- The conversion of a Go `int` to `int32`: the low 32 bits, read as a signed
number. -/
def toInt32 (x : Int) : Int := (x + 2147483648) % 4294967296 - 2147483648

/-- The method `SetFlags`: `log.SetFlags(int(flg))`.  The standard `log` package
keeps the flags of its logger in an `int32`. -/
def StdLogger.SetFlags (_l : StdLogger) (p : Proc) (flg : Int) : Proc :=
  { p with logFlags := toInt32 flg }

/-- The method `Flags`: `log.Flags()`, the flags the standard `log` package
holds. -/
def StdLogger.Flags (_l : StdLogger) (p : Proc) : Int := p.logFlags

/-- The method `SetLevel`. -/
def StdLogger.SetLevel (l : StdLogger) (level : Int) : StdLogger := { l with level := level }

/-- The method `Level`. -/
def StdLogger.Level (l : StdLogger) : Int := l.level

/-! ## The singleton constructor -/

/-- Modelled from the spec: the type `ResyncOnce` is declared outside
`logger.go`; the spec calls it a one-time-initialization guard. -/
structure ResyncOnce where
  done : Bool
  deriving DecidableEq, Repr

/-- Modelled from the spec: the method `Do` of the missing `ResyncOnce` runs the
function on the first call only. -/
def ResyncOnce.Do {σ : Type} (o : ResyncOnce) (f : σ → σ) (s : σ) : ResyncOnce × σ :=
  if o.done then (o, s) else ({ done := true }, f s)

/-- The value `new(StdLogger)`: every field zero or `nil`. -/
def StdLogger.zero : StdLogger :=
  { Formatter := { ForceColor := false, DisableTimestamp := false }
    appenders := none
    Out := none
    level := 0
    depth := 0
    flags := 0
    ColorDEFAULT := ""
    ColorERR := ""
    ColorWARN := ""
    ColorINFO := ""
    ColorDEBUG := ""
    ColorDEBUGX2 := ""
    entryPool := []
    Now := 0 }

/-- The first statements of the function literal handed to `once.Do` inside
`NewLogger`: the new logger, its creation time, layout, colors and depth, as it
stands when the options are applied. -/
def NewLogger.preset (env : Env) : StdLogger :=
  let t := StdLogger.zero
  let t := { t with Now := env.timeNow }
  let t := { t with Formatter := { ForceColor := true, DisableTimestamp := false } }
  let t := { t with ColorDEFAULT := env.ColorFmt Attribute.FgWhite }
  let t := { t with ColorERR := env.ColorFmt Attribute.FgRed }
  let t := { t with ColorWARN := env.ColorFmt Attribute.FgYellow }
  let t := { t with ColorINFO := env.ColorFmt Attribute.FgBlue }
  let t := { t with ColorDEBUG := t.ColorDEFAULT }
  let t := { t with ColorDEBUGX2 := t.ColorDEFAULT }
  let t := { t with depth := 5 }
  t

/-- The three `if` statements after the option loop: a level of `0`, an `Out`
of `nil` and an appender list of `nil` are replaced by the defaults. -/
def NewLogger.defaults (E : LogLevels) (t : StdLogger) : StdLogger :=
  let t : StdLogger := if t.level = 0 then { t with level := E.INFO } else t
  let t : StdLogger := if t.Out = none then { t with Out := some Writer.Stdout } else t
  let t : StdLogger :=
    if t.appenders = none then { t with appenders := some [NewConsoleAppender "*"] } else t
  t

/-- The function literal handed to `once.Do` inside `NewLogger`: preset, the
options in order, the defaults, and `t.SetFlags(t.flags)`. -/
def NewLogger.body (env : Env) (E : LogLevels) (opts : List LogOption) (p : Proc) :
    StdLogger × Proc :=
  let t := NewLogger.preset env
  let t : StdLogger := opts.foldl (fun t opt => opt t) t
  let t := NewLogger.defaults E t
  let p := t.SetFlags p t.flags
  (t, p)

/-- The function `NewLogger`: the local `t` starts as `nil`, is assigned only
inside the function handed to `once.Do`, and is what the function returns. -/
def NewLogger (env : Env) (E : LogLevels) (once : ResyncOnce) (p : Proc) (opts : List LogOption) :
    Option StdLogger × ResyncOnce × Proc :=
  let t : Option StdLogger := none
  let (once, t, p) :=
    once.Do (fun (s : Option StdLogger × Proc) =>
      let (t, p) := NewLogger.body env E opts s.2
      (some t, p)) (t, p)
  (t, once, p)

/-! ## The package-level state and functions -/

/-- The package-level variables after initialisation: the guard `once`, the
logger `std`, and the process around them. -/
structure Pkg where
  once : ResyncOnce
  std : StdLogger
  proc : Proc
  deriving DecidableEq, Repr

/-- Package initialisation: `once` is the zero guard and `std = NewLogger()`. -/
def pkgInit (env : Env) (E : LogLevels) : Option Pkg :=
  match NewLogger env E { done := false } { trace := [], logFlags := 0, nextAddr := 0 } [] with
  | (some t, once, p) => some { once := once, std := t, proc := p }
  | (none, _, _) => none

/-- The package-level `Modify`. -/
def Modify (g : Pkg) (opts : List LogOption) : Pkg :=
  { g with std := opts.foldl (fun t opt => opt t) g.std }

/-- The package-level `Logln`. -/
def Logln (env : Env) (E : LogLevels) (g : Pkg) (lvl : Int) (args : List Value)
    (pick : Option Nat) : Pkg :=
  if lvl ≤ g.std.level then
    let (l, p) := g.std.Logln env E g.proc lvl args pick
    { g with std := l, proc := p }
  else g

/-- The package-level `Logf`. -/
def Logf (env : Env) (E : LogLevels) (g : Pkg) (lvl : Int) (format : String) (args : List Value)
    (pick : Option Nat) : Pkg :=
  if lvl ≤ g.std.level then
    let (l, p) := g.std.Logf env E g.proc lvl format args pick
    { g with std := l, proc := p }
  else g

/-- The package-level `Print`. -/
def Print (env : Env) (E : LogLevels) (g : Pkg) (args : List Value) (pick : Option Nat) : Pkg :=
  let (l, p) := g.std.Print env E g.proc args pick
  { g with std := l, proc := p }

/-- The package-level `Printf`. -/
def Printf (env : Env) (E : LogLevels) (g : Pkg) (format : String) (args : List Value)
    (pick : Option Nat) : Pkg :=
  let (l, p) := g.std.Printf env E g.proc format args pick
  { g with std := l, proc := p }

/-- The package-level `Println`. -/
def Println (env : Env) (E : LogLevels) (g : Pkg) (args : List Value) (pick : Option Nat) : Pkg :=
  let (l, p) := g.std.Println env E g.proc args pick
  { g with std := l, proc := p }

/-- The package-level `SetLevel`. -/
def SetLevel (g : Pkg) (level : Int) : Pkg := { g with std := g.std.SetLevel level }

/-- The package-level `DisableTimestamp`. -/
def DisableTimestamp (g : Pkg) : Pkg :=
  { g with std := { g.std with Formatter := g.std.Formatter.DisableTimeStamp } }

/-- The package-level `EnableTimestamp`: the source calls
`std.Formatter.DisableTimeStamp()` here as well. -/
def EnableTimestamp (g : Pkg) : Pkg :=
  { g with std := { g.std with Formatter := g.std.Formatter.DisableTimeStamp } }

/-- The package-level `WithFields`. -/
def WithFields (g : Pkg) (fields : List Fields) (pick : Option Nat) : LogMsg × Pkg :=
  let (e, l, p) := g.std.WithFields g.proc fields pick
  (e, { g with std := l, proc := p })

/-! ## Reading a trace -/

/-- The events a call added: the trace after it, without the trace before it. -/
def added (before after : List Event) : List Event := after.drop before.length

/-- How many entries a trace takes from `newEntry`. -/
def acquires (tr : List Event) : Nat :=
  tr.countP (fun e => match e with
    | Event.acquire _ _ => true
    | _ => false)

/-- How many times a trace invokes `LogEnt`. -/
def logEnts (tr : List Event) : Nat :=
  tr.countP (fun e => match e with
    | Event.logEnt _ _ _ _ _ _ => true
    | _ => false)

/-- The exit codes a trace ends the process with. -/
def exits (tr : List Event) : List Int :=
  tr.filterMap (fun e => match e with
    | Event.exit c => some c
    | _ => none)

/-- A logger with the given threshold and pool, everything else as built by
`NewLogger` without options. -/
def loggerAt (env : Env) (E : LogLevels) (level : Int) (pool : List LogMsg) : StdLogger :=
  { (NewLogger.body env E [] { trace := [], logFlags := 0, nextAddr := 0 }).1 with
    level := level, entryPool := pool }

/-- A package state whose logger has the given threshold and pool. -/
def pkgAt (env : Env) (E : LogLevels) (level : Int) (pool : List LogMsg) : Pkg :=
  { once := { done := true }
    std := loggerAt env E level pool
    proc := { trace := [], logFlags := 0, nextAddr := pool.length } }

/-- The three events of one emitted call: the entry is taken, `LogEnt` is
invoked on it, the entry is put back. -/
def emission (a : Nat) (lvl : Int) (format caller : String) (newline : Bool)
    (args : List Value) : List Event :=
  [Event.acquire false a, Event.logEnt a lvl format caller newline args, Event.release a]

/-- The levels `LogEnt` is invoked with, in order. -/
def logEntLevels (tr : List Event) : List Int :=
  tr.filterMap (fun e => match e with
    | Event.logEnt _ lvl _ _ _ _ => some lvl
    | _ => none)

/-- The format and the newline switch `LogEnt` is invoked with, in order. -/
def logEntStyles (tr : List Event) : List (String × Bool) :=
  tr.filterMap (fun e => match e with
    | Event.logEnt _ _ format _ newline _ => some (format, newline)
    | _ => none)

/-! ## Lemmas on the pool and on the trace of one call -/

theorem added_append (tr xs : List Event) : added tr (tr ++ xs) = xs := by
  simp [added]

theorem added_self (tr : List Event) : added tr tr = [] := by
  simp [added]

theorem newEntry_trace (l : StdLogger) (p : Proc) (f : Bool) (pick : Option Nat) :
    (l.newEntry p f pick).2.2.trace
      = p.trace ++ [Event.acquire f (l.newEntry p f pick).1.addr] := by
  unfold StdLogger.newEntry
  rcases h : poolGet l.entryPool pick with ⟨_ | m, pool⟩ <;> simp [NewEntry]

theorem newEntry_config (l : StdLogger) (p : Proc) (f : Bool) (pick : Option Nat) :
    (l.newEntry p f pick).2.1.level = l.level ∧ (l.newEntry p f pick).2.1.depth = l.depth := by
  unfold StdLogger.newEntry
  rcases h : poolGet l.entryPool pick with ⟨_ | m, pool⟩ <;> simp [NewEntry]

theorem Logln_trace (env : Env) (E : LogLevels) (l : StdLogger) (p : Proc) (lvl : Int)
    (args : List Value) (pick : Option Nat) :
    (l.Logln env E p lvl args pick).2.trace = p.trace ++
      (if lvl ∈ E.named → lvl ≤ l.level then
        emission (l.newEntry p false pick).1.addr lvl "" (env.FindIssue l.depth) true args
          ++ (if lvl ≠ E.NONE ∧ lvl = E.FATAL then [Event.exit 1] else [])
       else []) := by
  have h1 := newEntry_trace l p false pick
  have h2 := newEntry_config l p false pick
  rcases h : l.newEntry p false pick with ⟨e, l', p'⟩
  rw [h] at h1 h2
  simp only at h1 h2
  unfold StdLogger.Logln
  simp only [h]
  split_ifs <;>
    simp_all [LogMsg.LogEnt, StdLogger.releaseEntry, StdLogger.Caller, osExit, LogLevels.named,
      emission] <;> omega

theorem Logf_trace (env : Env) (E : LogLevels) (l : StdLogger) (p : Proc) (lvl : Int)
    (format : String) (args : List Value) (pick : Option Nat) :
    (l.Logf env E p lvl format args pick).2.trace = p.trace ++
      (if lvl ∈ E.named → lvl ≤ l.level then
        emission (l.newEntry p false pick).1.addr lvl format (env.FindIssue l.depth) false args
       else []) := by
  have h1 := newEntry_trace l p false pick
  have h2 := newEntry_config l p false pick
  rcases h : l.newEntry p false pick with ⟨e, l', p'⟩
  rw [h] at h1 h2
  simp only at h1 h2
  unfold StdLogger.Logf
  simp only [h]
  split_ifs <;>
    simp_all [LogMsg.LogEnt, StdLogger.releaseEntry, StdLogger.Caller, osExit, LogLevels.named,
      emission] <;> omega

theorem Print_trace (env : Env) (E : LogLevels) (l : StdLogger) (p : Proc)
    (args : List Value) (pick : Option Nat) :
    (l.Print env E p args pick).2.trace = p.trace ++
      emission (l.newEntry p false pick).1.addr E.NONE "" (env.FindIssue l.depth) false args := by
  have h1 := newEntry_trace l p false pick
  have h2 := newEntry_config l p false pick
  rcases h : l.newEntry p false pick with ⟨e, l', p'⟩
  rw [h] at h1 h2
  simp only at h1 h2
  unfold StdLogger.Print
  simp_all [LogMsg.LogEnt, StdLogger.releaseEntry, StdLogger.Caller, emission]

theorem Printf_trace (env : Env) (E : LogLevels) (l : StdLogger) (p : Proc) (format : String)
    (args : List Value) (pick : Option Nat) :
    (l.Printf env E p format args pick).2.trace = p.trace ++
      emission (l.newEntry p false pick).1.addr E.NONE format (env.FindIssue l.depth) false
        args := by
  have h1 := newEntry_trace l p false pick
  have h2 := newEntry_config l p false pick
  rcases h : l.newEntry p false pick with ⟨e, l', p'⟩
  rw [h] at h1 h2
  simp only at h1 h2
  unfold StdLogger.Printf
  simp_all [LogMsg.LogEnt, StdLogger.releaseEntry, StdLogger.Caller, emission]

theorem Println_trace (env : Env) (E : LogLevels) (l : StdLogger) (p : Proc)
    (args : List Value) (pick : Option Nat) :
    (l.Println env E p args pick).2.trace = p.trace ++
      emission (l.newEntry p false pick).1.addr E.NONE "" (env.FindIssue l.depth) true args := by
  have h1 := newEntry_trace l p false pick
  have h2 := newEntry_config l p false pick
  rcases h : l.newEntry p false pick with ⟨e, l', p'⟩
  rw [h] at h1 h2
  simp only at h1 h2
  unfold StdLogger.Println
  simp_all [LogMsg.LogEnt, StdLogger.releaseEntry, StdLogger.Caller, emission]

theorem pkg_Logln_trace (env : Env) (E : LogLevels) (g : Pkg) (lvl : Int)
    (args : List Value) (pick : Option Nat) :
    (Logln env E g lvl args pick).proc.trace = g.proc.trace ++
      (if lvl ≤ g.std.level then
        emission (g.std.newEntry g.proc false pick).1.addr lvl "" (env.FindIssue g.std.depth)
            true args
          ++ (if lvl ≠ E.NONE ∧ lvl = E.FATAL then [Event.exit 1] else [])
       else []) := by
  by_cases h : lvl ≤ g.std.level
  · simp only [Logln, h, if_true]
    rw [Logln_trace]
    simp [h]
  · simp [Logln, h]

theorem pkg_Logf_trace (env : Env) (E : LogLevels) (g : Pkg) (lvl : Int) (format : String)
    (args : List Value) (pick : Option Nat) :
    (Logf env E g lvl format args pick).proc.trace = g.proc.trace ++
      (if lvl ≤ g.std.level then
        emission (g.std.newEntry g.proc false pick).1.addr lvl format (env.FindIssue g.std.depth)
            false args
       else []) := by
  by_cases h : lvl ≤ g.std.level
  · simp only [Logf, h, if_true]
    rw [Logf_trace]
    simp [h]
  · simp [Logf, h]



theorem pkg_Print_trace (env : Env) (E : LogLevels) (g : Pkg) (args : List Value)
    (pick : Option Nat) :
    (Print env E g args pick).proc.trace = (g.std.Print env E g.proc args pick).2.trace := by
  simp [Print]

theorem pkg_Printf_trace (env : Env) (E : LogLevels) (g : Pkg) (format : String)
    (args : List Value) (pick : Option Nat) :
    (Printf env E g format args pick).proc.trace
      = (g.std.Printf env E g.proc format args pick).2.trace := by
  simp [Printf]

theorem pkg_Println_trace (env : Env) (E : LogLevels) (g : Pkg) (args : List Value)
    (pick : Option Nat) :
    (Println env E g args pick).proc.trace = (g.std.Println env E g.proc args pick).2.trace := by
  simp [Println]

/-- The flags handed to `SetFlags` are kept to 32 bits: small values are stored
as they are, `1 << 40` is stored as `0`. -/
theorem SetFlags_keeps_int32 (l : StdLogger) (p : Proc) :
    l.Flags (l.SetFlags p 3) = 3 ∧ l.Flags (l.SetFlags p 1099511627776) = 0 ∧
      l.Flags (l.SetFlags p (-1)) = -1 := by
  simp [StdLogger.Flags, StdLogger.SetFlags, toInt32]

/-- With distinct `NONE` and `FATAL` and a threshold that permits `FATAL`, the
method `Logln` at `FATAL` invokes `LogEnt`, puts the entry back and then exits
with status 1. -/
theorem Logln_FATAL_exits (env : Env) (E : LogLevels) (l : StdLogger) (p : Proc)
    (args : List Value) (pick : Option Nat) (hE : E.Ordered) (hT : E.FATAL ≤ l.level) :
    (l.Logln env E p E.FATAL args pick).2.trace
      = p.trace ++ emission (l.newEntry p false pick).1.addr E.FATAL ""
          (env.FindIssue l.depth) true args ++ [Event.exit 1] := by
  have hne : E.FATAL ≠ E.NONE := by
    have := hE.1
    omega
  rw [Logln_trace]
  simp [hT, hne]

/-- Package initialisation succeeds, and after it the guard is spent: every
later `NewLogger` call returns `nil`. -/
theorem pkgInit_spends_guard (env : Env) (E : LogLevels) (opts : List LogOption) :
    ∃ g, pkgInit env E = some g ∧ (NewLogger env E g.once g.proc opts).1 = none := by
  simp [pkgInit, NewLogger, ResyncOnce.Do]

/-- The defaults of `NewLogger`, field by field. -/
theorem defaults_eq (E : LogLevels) (t : StdLogger) :
    NewLogger.defaults E t
      = { t with
          level := if t.level = 0 then E.INFO else t.level
          Out := some (t.Out.getD Writer.Stdout)
          appenders := some (t.appenders.getD [Appender.console "*"]) } := by
  rcases t with ⟨F, A, O, lv, d, fl, c1, c2, c3, c4, c5, c6, pool, now⟩
  unfold NewLogger.defaults
  by_cases h : lv = 0 <;> cases O <;> cases A <;> simp [h, NewConsoleAppender]

/-! ## The claims -/

/-- C1: for every level `L` among the seven named ones and every threshold of
the global logger, the package-level `Logf` and `Logln` only add to the trace,
and what they add takes exactly one entry and invokes `LogEnt` exactly once when
`L` is at most the threshold, and takes no entry and invokes `LogEnt` zero times
otherwise. -/
theorem Logf_Logln_level_gate (env : Env) (E : LogLevels) (g : Pkg) (format : String)
    (args : List Value) (pick : Option Nat) :
    ∀ L ∈ E.named,
      ((Logf env E g L format args pick).proc.trace
          = g.proc.trace ++ added g.proc.trace (Logf env E g L format args pick).proc.trace ∧
        acquires (added g.proc.trace (Logf env E g L format args pick).proc.trace)
          = (if L ≤ g.std.level then 1 else 0) ∧
        logEnts (added g.proc.trace (Logf env E g L format args pick).proc.trace)
          = (if L ≤ g.std.level then 1 else 0)) ∧
      ((Logln env E g L args pick).proc.trace
          = g.proc.trace ++ added g.proc.trace (Logln env E g L args pick).proc.trace ∧
        acquires (added g.proc.trace (Logln env E g L args pick).proc.trace)
          = (if L ≤ g.std.level then 1 else 0) ∧
        logEnts (added g.proc.trace (Logln env E g L args pick).proc.trace)
          = (if L ≤ g.std.level then 1 else 0)) := by
  intro L _
  rw [pkg_Logf_trace, pkg_Logln_trace]
  simp only [added_append]
  split_ifs <;> simp [acquires, logEnts, emission]

/-- Witness of C1: threshold `INFO`; `FATAL` is let through by both functions
and `DEBUG` is not. -/
theorem Logf_Logln_level_gate_witness :
    (acquires (added [] (Logf stdEnv stdLevels (pkgAt stdEnv stdLevels 5 []) 2 "x" [] none).proc.trace)
        = 1 ∧
      logEnts (added [] (Logln stdEnv stdLevels (pkgAt stdEnv stdLevels 5 []) 2 [] none).proc.trace)
        = 1) ∧
    (acquires (added [] (Logf stdEnv stdLevels (pkgAt stdEnv stdLevels 5 []) 6 "x" [] none).proc.trace)
        = 0 ∧
      logEnts (added [] (Logln stdEnv stdLevels (pkgAt stdEnv stdLevels 5 []) 6 [] none).proc.trace)
        = 0) :=
  ⟨⟨(Logf_Logln_level_gate stdEnv stdLevels (pkgAt stdEnv stdLevels 5 []) "x" [] none 2
        (by decide)).1.2.1,
    (Logf_Logln_level_gate stdEnv stdLevels (pkgAt stdEnv stdLevels 5 []) "x" [] none 2
        (by decide)).2.2.2⟩,
   ⟨(Logf_Logln_level_gate stdEnv stdLevels (pkgAt stdEnv stdLevels 5 []) "x" [] none 6
        (by decide)).1.2.1,
    (Logf_Logln_level_gate stdEnv stdLevels (pkgAt stdEnv stdLevels 5 []) "x" [] none 6
        (by decide)).2.2.2⟩⟩

/-- C4: whatever the threshold `T` of the logger is (`NONE` included) and
whatever the arguments are, `Print`, `Printf` and `Println`, as methods and as
package-level functions, take one entry and invoke `LogEnt` exactly once, with
level `NONE`. -/
theorem Print_family_ignores_threshold (env : Env) (E : LogLevels) (g : Pkg) (T : Int)
    (format : String) (args : List Value) (pick : Option Nat) :
    (acquires (added g.proc.trace (Print env E (SetLevel g T) args pick).proc.trace) = 1 ∧
      logEntLevels (added g.proc.trace (Print env E (SetLevel g T) args pick).proc.trace)
        = [E.NONE]) ∧
    (acquires (added g.proc.trace (Printf env E (SetLevel g T) format args pick).proc.trace) = 1 ∧
      logEntLevels (added g.proc.trace (Printf env E (SetLevel g T) format args pick).proc.trace)
        = [E.NONE]) ∧
    (acquires (added g.proc.trace (Println env E (SetLevel g T) args pick).proc.trace) = 1 ∧
      logEntLevels (added g.proc.trace (Println env E (SetLevel g T) args pick).proc.trace)
        = [E.NONE]) ∧
    (acquires (added g.proc.trace ((g.std.SetLevel T).Print env E g.proc args pick).2.trace) = 1 ∧
      logEntLevels (added g.proc.trace ((g.std.SetLevel T).Print env E g.proc args pick).2.trace)
        = [E.NONE]) ∧
    (acquires (added g.proc.trace
        ((g.std.SetLevel T).Printf env E g.proc format args pick).2.trace) = 1 ∧
      logEntLevels (added g.proc.trace
        ((g.std.SetLevel T).Printf env E g.proc format args pick).2.trace) = [E.NONE]) ∧
    (acquires (added g.proc.trace ((g.std.SetLevel T).Println env E g.proc args pick).2.trace) = 1 ∧
      logEntLevels (added g.proc.trace ((g.std.SetLevel T).Println env E g.proc args pick).2.trace)
        = [E.NONE]) := by
  simp only [pkg_Print_trace, pkg_Printf_trace, pkg_Println_trace, Print_trace, Printf_trace,
    Println_trace, SetLevel, added_append]
  simp [acquires, logEntLevels, emission]

/-- C5: for every argument list and every level, the `LogEnt` invocation of
`Println` and of `Logln` (when the call is let through) has an empty format and
`newline = true`, and the one of `Printf` and of `Logf` has the caller's format
unchanged and `newline = false`. -/
theorem println_style_and_printf_style (env : Env) (E : LogLevels) (l : StdLogger) (p : Proc)
    (lvl : Int) (format : String) (args : List Value) (pick : Option Nat) :
    logEntStyles (added p.trace (l.Println env E p args pick).2.trace) = [("", true)] ∧
    logEntStyles (added p.trace (l.Logln env E p lvl args pick).2.trace)
      = (if lvl ∈ E.named → lvl ≤ l.level then [("", true)] else []) ∧
    logEntStyles (added p.trace (l.Printf env E p format args pick).2.trace)
      = [(format, false)] ∧
    logEntStyles (added p.trace (l.Logf env E p lvl format args pick).2.trace)
      = (if lvl ∈ E.named → lvl ≤ l.level then [(format, false)] else []) := by
  simp only [Println_trace, Printf_trace, Logln_trace, Logf_trace, added_append]
  split_ifs <;> simp [logEntStyles, emission]



/-- C10: for a level value that is none of the seven named ones the methods
`Logf` and `Logln` emit (take an entry, invoke `LogEnt` once, put the entry back)
whatever the threshold is, while the package-level functions emit exactly when
the value is at most the threshold; for a named level the method and the
package-level function add the same events, and they emit exactly when the
level is at most the threshold. -/
theorem method_gate_and_package_gate (env : Env) (E : LogLevels) (g : Pkg) (lvl : Int)
    (format : String) (args : List Value) (pick : Option Nat) :
    (lvl ∉ E.named →
      added g.proc.trace (g.std.Logf env E g.proc lvl format args pick).2.trace
        = emission (g.std.newEntry g.proc false pick).1.addr lvl format
            (env.FindIssue g.std.depth) false args ∧
      added g.proc.trace (g.std.Logln env E g.proc lvl args pick).2.trace
        = emission (g.std.newEntry g.proc false pick).1.addr lvl ""
            (env.FindIssue g.std.depth) true args ∧
      added g.proc.trace (Logf env E g lvl format args pick).proc.trace
        = (if lvl ≤ g.std.level then
            emission (g.std.newEntry g.proc false pick).1.addr lvl format
              (env.FindIssue g.std.depth) false args
           else []) ∧
      added g.proc.trace (Logln env E g lvl args pick).proc.trace
        = (if lvl ≤ g.std.level then
            emission (g.std.newEntry g.proc false pick).1.addr lvl ""
              (env.FindIssue g.std.depth) true args
           else [])) ∧
    (lvl ∈ E.named →
      (g.std.Logf env E g.proc lvl format args pick).2.trace
        = (Logf env E g lvl format args pick).proc.trace ∧
      (g.std.Logln env E g.proc lvl args pick).2.trace
        = (Logln env E g lvl args pick).proc.trace ∧
      acquires (added g.proc.trace (g.std.Logf env E g.proc lvl format args pick).2.trace)
        = (if lvl ≤ g.std.level then 1 else 0) ∧
      logEnts (added g.proc.trace (g.std.Logf env E g.proc lvl format args pick).2.trace)
        = (if lvl ≤ g.std.level then 1 else 0) ∧
      acquires (added g.proc.trace (g.std.Logln env E g.proc lvl args pick).2.trace)
        = (if lvl ≤ g.std.level then 1 else 0) ∧
      logEnts (added g.proc.trace (g.std.Logln env E g.proc lvl args pick).2.trace)
        = (if lvl ≤ g.std.level then 1 else 0)) := by
  constructor
  · intro h
    have hF : lvl ≠ E.FATAL := by
      intro hf
      apply h
      simp [LogLevels.named, hf]
    simp only [Logf_trace, Logln_trace, pkg_Logf_trace, pkg_Logln_trace, added_append]
    simp [h, hF]
  · intro h
    simp only [Logf_trace, Logln_trace, pkg_Logf_trace, pkg_Logln_trace, added_append]
    simp only [h, true_implies]
    split_ifs <;> simp [acquires, logEnts, emission]

/-- Witness of C10: threshold `INFO = 5`; the value `9` is no named level, the
method emits it and the package-level function does not; `DEBUG = 6` is named
and neither emits it. -/
theorem method_gate_and_package_gate_witness :
    (added [] ((pkgAt stdEnv stdLevels 5 []).std.Logf stdEnv stdLevels
        (pkgAt stdEnv stdLevels 5 []).proc 9 "x" [] none).2.trace
        = emission 0 9 "x" "main.main" false [] ∧
      added [] (Logf stdEnv stdLevels (pkgAt stdEnv stdLevels 5 []) 9 "x" [] none).proc.trace
        = []) ∧
    (acquires (added [] ((pkgAt stdEnv stdLevels 5 []).std.Logf stdEnv stdLevels
        (pkgAt stdEnv stdLevels 5 []).proc 6 "x" [] none).2.trace) = 0) :=
  ⟨⟨((method_gate_and_package_gate stdEnv stdLevels (pkgAt stdEnv stdLevels 5 []) 9 "x" []
        none).1 (by decide)).1,
    ((method_gate_and_package_gate stdEnv stdLevels (pkgAt stdEnv stdLevels 5 []) 9 "x" []
        none).1 (by decide)).2.2.1⟩,
   ((method_gate_and_package_gate stdEnv stdLevels (pkgAt stdEnv stdLevels 5 []) 6 "x" []
        none).2 (by decide)).2.2.1⟩

/-- C2, the code at the failing input: `Logf` never ends the process, at level
`FATAL` or any other, while `Logln` at `FATAL` under threshold `INFO` invokes
`LogEnt`, puts the entry back and then exits with status 1. -/
theorem Logf_FATAL_does_not_exit (env : Env) (E : LogLevels) (l : StdLogger) (p : Proc)
    (format : String) (args : List Value) (pick : Option Nat) :
    exits (added p.trace (l.Logf env E p E.FATAL format args pick).2.trace) = [] ∧
    added [] ((loggerAt stdEnv stdLevels stdLevels.INFO []).Logf stdEnv stdLevels
        { trace := [], logFlags := 0, nextAddr := 0 } stdLevels.FATAL "x" [] none).2.trace
      = [Event.acquire false 0, Event.logEnt 0 stdLevels.FATAL "x" "main.main" false [],
          Event.release 0] ∧
    added [] ((loggerAt stdEnv stdLevels stdLevels.INFO []).Logln stdEnv stdLevels
        { trace := [], logFlags := 0, nextAddr := 0 } stdLevels.FATAL [] none).2.trace
      = [Event.acquire false 0, Event.logEnt 0 stdLevels.FATAL "" "main.main" true [],
          Event.release 0, Event.exit 1] := by
  refine ⟨?_, by decide, by decide⟩
  simp only [Logf_trace, added_append]
  split_ifs <;> simp [exits, emission]

/-- C3, the code at the failing input: the first call of `NewLogger` on a fresh
guard returns the logger it builds; a second call, whatever its options, returns
`nil` and changes nothing. -/
theorem NewLogger_second_call_returns_nil (env : Env) (E : LogLevels) (p : Proc)
    (opts1 opts2 : List LogOption) :
    (NewLogger env E { done := false } p opts1).1 = some (NewLogger.body env E opts1 p).1 ∧
    NewLogger env E (NewLogger env E { done := false } p opts1).2.1
        (NewLogger env E { done := false } p opts1).2.2 opts2
      = (none, (NewLogger env E { done := false } p opts1).2.1,
          (NewLogger env E { done := false } p opts1).2.2) := by
  simp [NewLogger, ResyncOnce.Do]

/-- C9, the code at the failing input: `EnableTimestamp` is the same operation
as `DisableTimestamp`, so after `DisableTimestamp` followed by `EnableTimestamp`
the timestamp is still off. -/
theorem EnableTimestamp_disables (g : Pkg) :
    EnableTimestamp g = DisableTimestamp g ∧
    (EnableTimestamp (DisableTimestamp g)).std.Formatter.timestampEnabled = false ∧
    (EnableTimestamp g).std.Formatter.timestampEnabled = false := by
  simp [EnableTimestamp, DisableTimestamp, Layout.DisableTimeStamp, Layout.timestampEnabled]



/-- C6: for every pool state and every way the pool answers, `newEntry(false)`
returns an entry with no fields, also right after an entry `e` with arbitrary
fields was released; and when the pool hands out its idle entry `m`,
`newEntry(false)` returns `m` with the fields emptied while `newEntry(true)`
returns `m` untouched, in particular the entry `e` exactly as it was released. -/
theorem newEntry_fields (l : StdLogger) (p : Proc) (e : LogMsg) (pick : Option Nat) (i : Nat)
    (m : LogMsg) (h : l.entryPool.get? i = some m) :
    (l.newEntry p false pick).1.Fields = [] ∧
    ((l.releaseEntry p e).1.newEntry (l.releaseEntry p e).2 false pick).1.Fields = [] ∧
    (l.newEntry p false (some i)).1 = { m with Fields := [] } ∧
    (l.newEntry p true (some i)).1 = m ∧
    ((l.releaseEntry p e).1.newEntry (l.releaseEntry p e).2 true (some 0)).1 = e := by
  have key : ∀ (l : StdLogger) (p : Proc) (pick : Option Nat),
      (l.newEntry p false pick).1.Fields = [] := by
    intro l p pick
    unfold StdLogger.newEntry
    rcases hg : poolGet l.entryPool pick with ⟨_ | m, pool⟩ <;> simp [NewEntry]
  have hg : poolGet l.entryPool (some i) = (some m, l.entryPool.eraseIdx i) := by
    simp only [poolGet, h]
  refine ⟨key l p pick, key _ _ pick, ?_, ?_, ?_⟩
  · simp only [StdLogger.newEntry, hg]
    simp
  · simp only [StdLogger.newEntry, hg]
    simp
  · simp [StdLogger.newEntry, StdLogger.releaseEntry, poolGet, poolPut]

/-- Witness of C6: the pool holds one entry that carries the field `user = a`. -/
theorem newEntry_fields_witness :
    ((loggerAt stdEnv stdLevels 5
        [{ addr := 0, Level := 5, Format := "", Caller := "", Newline := true, Args := [],
           Fields := [{ Key := "user", Val := Value.str "a" }] }]).newEntry
        { trace := [], logFlags := 0, nextAddr := 1 } false (some 0)).1.Fields = [] ∧
    ((loggerAt stdEnv stdLevels 5
        [{ addr := 0, Level := 5, Format := "", Caller := "", Newline := true, Args := [],
           Fields := [{ Key := "user", Val := Value.str "a" }] }]).newEntry
        { trace := [], logFlags := 0, nextAddr := 1 } true (some 0)).1.Fields
      = [{ Key := "user", Val := Value.str "a" }] :=
  ⟨(newEntry_fields _ { trace := [], logFlags := 0, nextAddr := 1 }
      { addr := 7, Level := 0, Format := "", Caller := "", Newline := false, Args := [],
        Fields := [] } (some 0) 0
      { addr := 0, Level := 5, Format := "", Caller := "", Newline := true, Args := [],
        Fields := [{ Key := "user", Val := Value.str "a" }] } (by decide)).1,
   congrArg LogMsg.Fields
    (newEntry_fields _ { trace := [], logFlags := 0, nextAddr := 1 }
      { addr := 7, Level := 0, Format := "", Caller := "", Newline := false, Args := [],
        Fields := [] } (some 0) 0
      { addr := 0, Level := 5, Format := "", Caller := "", Newline := true, Args := [],
        Fields := [{ Key := "user", Val := Value.str "a" }] } (by decide)).2.2.2.1⟩

/-- C7 as stated fails: on an empty pool, `WithFields` with one field returns the
entry at address 0, and when it has returned that entry is in the pool (the
trace ends with its release) and the next `newEntry` obtains it. -/
theorem WithFields_returns_released_entry :
    ((loggerAt stdEnv stdLevels 5 []).WithFields { trace := [], logFlags := 0, nextAddr := 0 }
        [{ Key := "user", Val := Value.str "a" }] none).1
      ∈ ((loggerAt stdEnv stdLevels 5 []).WithFields { trace := [], logFlags := 0, nextAddr := 0 }
        [{ Key := "user", Val := Value.str "a" }] none).2.1.entryPool ∧
    ((loggerAt stdEnv stdLevels 5 []).WithFields { trace := [], logFlags := 0, nextAddr := 0 }
        [{ Key := "user", Val := Value.str "a" }] none).2.2.trace
      = [Event.acquire true 0, Event.release 0] ∧
    (((loggerAt stdEnv stdLevels 5 []).WithFields { trace := [], logFlags := 0, nextAddr := 0 }
        [{ Key := "user", Val := Value.str "a" }] none).2.1.newEntry
      ((loggerAt stdEnv stdLevels 5 []).WithFields { trace := [], logFlags := 0, nextAddr := 0 }
        [{ Key := "user", Val := Value.str "a" }] none).2.2 true (some 0)).1
      = ((loggerAt stdEnv stdLevels 5 []).WithFields { trace := [], logFlags := 0, nextAddr := 0 }
        [{ Key := "user", Val := Value.str "a" }] none).1 := by
  decide

/-- C7 as amended: `WithFields` takes an entry with `reuseFields = true`, returns
that entry with the fields appended, and puts it back into the pool before it
returns: the only events are the acquisition and the release of that entry, the
entry is in the pool on return, and a later `newEntry` can obtain it.  The
package-level `WithFields` does the same on the logger `std`. -/
theorem WithFields_releases_on_return (l : StdLogger) (p : Proc) (g : Pkg)
    (fields : List Fields) (pick : Option Nat) :
    (l.WithFields p fields pick).1 = (l.newEntry p true pick).1.WithFields fields ∧
    (l.WithFields p fields pick).2.2.trace
      = p.trace ++ [Event.acquire true (l.WithFields p fields pick).1.addr,
          Event.release (l.WithFields p fields pick).1.addr] ∧
    (l.WithFields p fields pick).1 ∈ (l.WithFields p fields pick).2.1.entryPool ∧
    ((l.WithFields p fields pick).2.1.newEntry (l.WithFields p fields pick).2.2 true (some 0)).1
      = (l.WithFields p fields pick).1 ∧
    (WithFields g fields pick).1 = (g.std.WithFields g.proc fields pick).1 ∧
    (WithFields g fields pick).1 ∈ (WithFields g fields pick).2.std.entryPool := by
  have key : ∀ (l : StdLogger) (p : Proc),
      (l.WithFields p fields pick).1 ∈ (l.WithFields p fields pick).2.1.entryPool := by
    intro l p
    rcases h : l.newEntry p true pick with ⟨e, l', p'⟩
    simp [StdLogger.WithFields, h, StdLogger.releaseEntry, poolPut]
  refine ⟨?_, ?_, key l p, ?_, by simp [WithFields], by simpa [WithFields] using key g.std g.proc⟩
  all_goals
    have h1 := newEntry_trace l p true pick
    rcases h : l.newEntry p true pick with ⟨e, l', p'⟩
    rw [h] at h1
    simp only at h1
    simp only [StdLogger.WithFields, h, StdLogger.releaseEntry, poolPut] <;>
      simp [h1, StdLogger.newEntry, poolGet, LogMsg.WithFields]

/-- C8 as stated fails when a named level has the value `0`: with the levels
numbered from `0`, an option that sets the threshold to `NONE` is given to the
first `NewLogger` call, and the resulting threshold is `INFO`, not `NONE`. -/
theorem NewLogger_level_zero_becomes_INFO :
    iotaLevels.NONE ∈ iotaLevels.named ∧
    (NewLogger stdEnv iotaLevels { done := false } { trace := [], logFlags := 0, nextAddr := 0 }
        [fun t => t.SetLevel iotaLevels.NONE]).1.map StdLogger.level = some iotaLevels.INFO ∧
    iotaLevels.INFO ≠ iotaLevels.NONE := by
  decide

/-- C8 as amended: the first `NewLogger` call applies its options in order to
the preset logger and then fills a default only where the options left the zero
value: without options the result has threshold `INFO`, `Out` = standard output,
one console appender with rule `*`, depth 5 and the colors white (default,
debug, debugx2), red, yellow and blue; and an option that sets the threshold to
a named level `L`, alone or last in a list, yields threshold `L` when the value
of `L` is not `0`, and `INFO` when it is `0`, the value `NewLogger` reads as "no
level set"; either way the threshold is one of the named levels. -/
theorem NewLogger_defaults (env : Env) (E : LogLevels) (p : Proc) (opts : List LogOption)
    (opt : LogOption) (L : Int) (hL : L ∈ E.named)
    (hopt : ∀ t : StdLogger, (opt t).level = L) :
    (NewLogger env E { done := false } p []).1
      = some { Formatter := { ForceColor := true, DisableTimestamp := false }
               appenders := some [Appender.console "*"]
               Out := some Writer.Stdout
               level := E.INFO
               depth := 5
               flags := 0
               ColorDEFAULT := env.ColorFmt Attribute.FgWhite
               ColorERR := env.ColorFmt Attribute.FgRed
               ColorWARN := env.ColorFmt Attribute.FgYellow
               ColorINFO := env.ColorFmt Attribute.FgBlue
               ColorDEBUG := env.ColorFmt Attribute.FgWhite
               ColorDEBUGX2 := env.ColorFmt Attribute.FgWhite
               entryPool := []
               Now := env.timeNow } ∧
    (L ≠ 0 →
      (NewLogger env E { done := false } p [opt]).1.map StdLogger.level = some L ∧
      (NewLogger env E { done := false } p (opts ++ [opt])).1.map StdLogger.level = some L) ∧
    (L = 0 →
      (NewLogger env E { done := false } p [opt]).1.map StdLogger.level = some E.INFO ∧
      (NewLogger env E { done := false } p (opts ++ [opt])).1.map StdLogger.level
        = some E.INFO) ∧
    (∃ L' ∈ E.named,
      (NewLogger env E { done := false } p (opts ++ [opt])).1.map StdLogger.level = some L') ∧
    (NewLogger env E { done := false } p opts).1
      = some (NewLogger.defaults E (opts.foldl (fun t o => o t) (NewLogger.preset env))) ∧
    (∀ t : StdLogger,
      (NewLogger.defaults E t).level = (if t.level = 0 then E.INFO else t.level) ∧
      (NewLogger.defaults E t).Out = some (t.Out.getD Writer.Stdout) ∧
      (NewLogger.defaults E t).appenders = some (t.appenders.getD [Appender.console "*"]) ∧
      (NewLogger.defaults E t).depth = t.depth ∧
      (NewLogger.defaults E t).Formatter = t.Formatter ∧
      (NewLogger.defaults E t).ColorDEFAULT = t.ColorDEFAULT ∧
      (NewLogger.defaults E t).ColorERR = t.ColorERR ∧
      (NewLogger.defaults E t).ColorWARN = t.ColorWARN ∧
      (NewLogger.defaults E t).ColorINFO = t.ColorINFO ∧
      (NewLogger.defaults E t).ColorDEBUG = t.ColorDEBUG ∧
      (NewLogger.defaults E t).ColorDEBUGX2 = t.ColorDEBUGX2) := by
  have hdef := defaults_eq E
  have hlev : ∀ t : StdLogger,
      (NewLogger.defaults E t).level = (if t.level = 0 then E.INFO else t.level) := by
    intro t
    rw [hdef]
  have hlast : (NewLogger env E { done := false } p (opts ++ [opt])).1.map StdLogger.level
      = some (if L = 0 then E.INFO else L) := by
    simp [NewLogger, ResyncOnce.Do, NewLogger.body, hlev, hopt, List.foldl_append]
  have hone : (NewLogger env E { done := false } p [opt]).1.map StdLogger.level
      = some (if L = 0 then E.INFO else L) := by
    simp [NewLogger, ResyncOnce.Do, NewLogger.body, hlev, hopt]
  refine ⟨?_, ?_, ?_, ?_, ?_, ?_⟩
  · simp [NewLogger, ResyncOnce.Do, NewLogger.body, NewLogger.preset, NewLogger.defaults,
      StdLogger.zero, NewConsoleAppender]
  · intro h0
    rw [hone, hlast]
    simp [h0]
  · intro h0
    rw [hone, hlast]
    simp [h0]
  · by_cases h0 : L = 0
    · exact ⟨E.INFO, by simp [LogLevels.named], by rw [hlast]; simp [h0]⟩
    · exact ⟨L, hL, by rw [hlast]; simp [h0]⟩
  · simp [NewLogger, ResyncOnce.Do, NewLogger.body]
  · intro t
    rw [hdef]
    simp

/-- Witness of C8: the levels numbered 1 to 7 and an option that sets the
threshold to `DEBUG = 6`, a value other than `0`. -/
theorem NewLogger_defaults_witness :
    (NewLogger stdEnv stdLevels { done := false } { trace := [], logFlags := 0, nextAddr := 0 }
        [fun t => t.SetLevel 6]).1.map StdLogger.level = some 6 :=
  ((NewLogger_defaults stdEnv stdLevels { trace := [], logFlags := 0, nextAddr := 0 } []
    (fun t => t.SetLevel 6) 6 (by decide) (fun _ => rfl)).2.1 (by decide)).1

end ng
